import Mathlib

/-!
Shallow embedding of `final_project.py`: a script that ingests brewery and
weather records for two fixed cities into a three-table SQLite database,
runs one aggregate correlation query, appends its result to a text report,
and renders four charts.

Modelling conventions:
* The SQLite tables are lists of row structures inside `DBState`, together
  with the next auto-assigned primary key for each table.
* SQL `REAL` columns are `Rat` (and `Option Rat` where the column is
  nullable, i.e. everywhere but the key and text-key columns).
* Network calls are passed in as functions from the request parameters to
  `Except RequestError response`; a `.error` models
  `requests.exceptions.RequestException`.
* Exceptions that the script does not catch locally are modelled by
  `Except PyError`; a Python function that cannot raise is modelled as a
  total function.
* File-system effects (the report file, `plt.savefig`) are passed in as
  `Except PyError Unit` outcomes; the report file itself is a
  `List ReportBlock` of appended blocks.
-/

namespace FinalProject

/-- `PER_PAGE_LIMIT = 25` from the script configuration. -/
def PER_PAGE_LIMIT : Nat := 25

/-- `ROW_MINIMUM = 100` from the script configuration. -/
def ROW_MINIMUM : Nat := 100

/-- One entry of the `CITIES` configuration list. -/
structure CityData where
  city : String
  state : String
  lat : Rat
  long : Rat
  filter_type : String
  deriving Repr, DecidableEq

/-- First entry of `CITIES` (the primary city). -/
def ann_arbor_data : CityData :=
  ⟨"Ann Arbor", "Michigan", 42.2776, -83.7409, "state"⟩

/-- Second entry of `CITIES` (the extra-credit city). -/
def dallas_data : CityData :=
  ⟨"Dallas", "Texas", 32.7831, -96.8067, "city_state"⟩

/-- The `CITIES` configuration list. -/
def CITIES : List CityData := [ann_arbor_data, dallas_data]

/-- `TARGET_CITY = CITIES[0]['city']`. -/
def TARGET_CITY : String := "Ann Arbor"

/-- `TARGET_STATE = CITIES[0]['state']`. -/
def TARGET_STATE : String := "Michigan"

/-- A row of the `Locations` table (City and State are `NOT NULL`). -/
structure LocationRow where
  locationID : Nat
  city : String
  state : String
  latitude : Rat
  longitude : Rat
  deriving Repr, DecidableEq

/-- A row of the `Breweries` table (`Name` is `NOT NULL`, the rest of the
data columns are nullable). -/
structure BreweryRow where
  breweryID : Nat
  name : String
  breweryType : Option String
  websiteURL : Option String
  locationID : Nat
  deriving Repr, DecidableEq

/-- A row of the `Weather` table (`Date` is `NOT NULL`, the measurement
columns are nullable `REAL`). -/
structure WeatherRow where
  weatherID : Nat
  date : String
  maxTemp : Option Rat
  sunshineDuration : Option Rat
  precipitationSum : Option Rat
  windGustsMax : Option Rat
  locationID : Nat
  deriving Repr, DecidableEq

/-- The three tables plus the next auto-assigned integer key of each. -/
structure DBState where
  locations : List LocationRow
  breweries : List BreweryRow
  weather : List WeatherRow
  nextLocationID : Nat
  nextBreweryID : Nat
  nextWeatherID : Nat
  deriving Repr, DecidableEq

/-- A freshly created database (`create_database` on a new file). -/
def emptyDB : DBState := ⟨[], [], [], 1, 1, 1⟩

/-- `requests.exceptions.RequestException`, caught at both call sites. -/
inductive RequestError where
  | requestException (msg : String)
  deriving Repr, DecidableEq

/-- Exceptions the script never catches below the top level. -/
inductive PyError where
  | indexError
  | ioError (msg : String)
  | keyError
  deriving Repr, DecidableEq

/-- `get_or_create_location`: look up `(City, State)`; return the existing
`LocationID` or insert a new row and return its assigned id. -/
def get_or_create_location (db : DBState) (city state : String)
    (lat long : Rat) : DBState × Nat :=
  match db.locations.find? (fun l => l.city == city && l.state == state) with
  | some l => (db, l.locationID)
  | none =>
      ({ db with
          locations :=
            db.locations ++ [⟨db.nextLocationID, city, state, lat, long⟩],
          nextLocationID := db.nextLocationID + 1 },
        db.nextLocationID)

/-- One record of the brewery API JSON response; `dict.get` on absent keys
yields `None`, so every field is optional. -/
structure BreweryRecord where
  name : Option String
  brewery_type : Option String
  website_url : Option String
  deriving Repr, DecidableEq

/-- The query parameters of one brewery API request. -/
structure BreweryRequest where
  per_page : Nat
  page : Nat
  by_city : Option String
  by_state : Option String
  deriving Repr, DecidableEq

/-- The `params` dict built by `fetch_and_store_breweries`: `by_state`
alone in `state` filter mode, `by_city` and `by_state` otherwise. -/
def breweryParams (cd : CityData) (next_page : Nat) : BreweryRequest :=
  if cd.filter_type == "state" then
    ⟨PER_PAGE_LIMIT, next_page, none, some cd.state⟩
  else
    ⟨PER_PAGE_LIMIT, next_page, some cd.city, some cd.state⟩

/-- `SELECT COUNT(*) FROM Breweries WHERE LocationID = ?`. -/
def breweryCount (db : DBState) (loc : Nat) : Nat :=
  (db.breweries.filter (fun r => r.locationID == loc)).length

/-- `INSERT OR IGNORE INTO Breweries ...`: the row is dropped without an
error when `Name` is `NULL` (`NOT NULL` constraint) or when the
`(Name, LocationID)` pair already exists (`UNIQUE` constraint). -/
def insertBreweryIgnore (db : DBState) (loc : Nat) (b : BreweryRecord) :
    DBState :=
  match b.name with
  | none => db
  | some n =>
      if db.breweries.any (fun r => r.name == n && r.locationID == loc) then
        db
      else
        { db with
            breweries :=
              db.breweries ++
                [⟨db.nextBreweryID, n, b.brewery_type, b.website_url, loc⟩],
            nextBreweryID := db.nextBreweryID + 1 }

/-- The insert loop of `fetch_and_store_breweries`. `inserted_count += 1`
runs after every `INSERT OR IGNORE`, so the counter advances for every
record of the response whether or not a row was added; the
`except sqlite3.IntegrityError` handler in the source is unreachable
because `OR IGNORE` suppresses constraint violations. -/
def storeBreweries (db : DBState) (loc : Nat) (rs : List BreweryRecord) :
    DBState × Nat :=
  rs.foldl (fun acc b => (insertBreweryIgnore acc.1 loc b, acc.2 + 1)) (db, 0)

/-- `fetch_and_store_breweries`. The result carries the updated database,
the returned `inserted_count`, and the list of API requests issued (empty
when the fetch is skipped, a single request otherwise). A `.error` from
`api` models a caught `RequestException`: the function logs and returns 0. -/
def fetch_and_store_breweries (db : DBState) (location_id : Nat)
    (city_data : CityData)
    (api : BreweryRequest → Except RequestError (List BreweryRecord)) :
    DBState × Nat × List BreweryRequest :=
  let current_count := breweryCount db location_id
  let next_page := current_count / PER_PAGE_LIMIT + 1
  if current_count ≥ ROW_MINIMUM then
    (db, 0, [])
  else
    let params := breweryParams city_data next_page
    match api params with
    | .error _ => (db, 0, [params])
    | .ok brewery_data =>
        let r := storeBreweries db location_id brewery_data
        (r.1, r.2, [params])

/-- The query parameters of the single weather API request. -/
structure WeatherParams where
  latitude : Rat
  longitude : Rat
  daily : String
  past_days : Nat
  forecast_days : Nat
  timezone : String
  deriving Repr, DecidableEq

/-- The `params` dict built by `fetch_and_store_weather`. -/
def weatherParams (cd : CityData) : WeatherParams :=
  ⟨cd.lat, cd.long,
    "temperature_2m_max,sunshine_duration,precipitation_sum,wind_gusts_10m_max",
    92, 16, "America/New_York"⟩

/-- The `daily` object of the weather API JSON response: five parallel
arrays read with `dict.get(key, [])`, assumed aligned by index. Measurement
entries may be JSON `null`, hence `Option Rat`. -/
structure WeatherDaily where
  time : List String
  temperature_2m_max : List (Option Rat)
  sunshine_duration : List (Option Rat)
  precipitation_sum : List (Option Rat)
  wind_gusts_10m_max : List (Option Rat)
  deriving Repr, DecidableEq

/-- `INSERT OR IGNORE INTO Weather ...`: dropped without an error when the
`(Date, LocationID)` pair already exists. -/
def insertWeatherIgnore (db : DBState) (loc : Nat) (d : String)
    (t s p w : Option Rat) : DBState :=
  if db.weather.any (fun r => r.date == d && r.locationID == loc) then
    db
  else
    { db with
        weather := db.weather ++ [⟨db.nextWeatherID, d, t, s, p, w, loc⟩],
        nextWeatherID := db.nextWeatherID + 1 }

/-- One iteration of the `for i in range(len(dates))` loop: the five index
accesses `dates[i]`, `max_temps[i]`, `sunshine[i]`, `precip[i]`,
`wind_gusts[i]`. Any out-of-range access raises `IndexError`, which the
per-row handler (which names only `sqlite3.IntegrityError`) does not catch. -/
def storeWeatherStep (wd : WeatherDaily) (loc : Nat) (i : Nat)
    (acc : DBState × Nat) : Except PyError (DBState × Nat) :=
  match wd.time[i]?, wd.temperature_2m_max[i]?, wd.sunshine_duration[i]?,
      wd.precipitation_sum[i]?, wd.wind_gusts_10m_max[i]? with
  | some d, some t, some s, some p, some w =>
      .ok (insertWeatherIgnore acc.1 loc d t s p w, acc.2 + 1)
  | _, _, _, _, _ => .error .indexError

/-- The insert loop of `fetch_and_store_weather` over a list of indices. -/
def storeWeatherAux (wd : WeatherDaily) (loc : Nat) :
    List Nat → DBState × Nat → Except PyError (DBState × Nat)
  | [], acc => .ok acc
  | i :: is, acc =>
      match storeWeatherStep wd loc i acc with
      | .error e => .error e
      | .ok acc2 => storeWeatherAux wd loc is acc2

/-- The whole insert loop of `fetch_and_store_weather`:
`for i in range(len(dates))`. -/
def storeWeather (db : DBState) (loc : Nat) (wd : WeatherDaily) :
    Except PyError (DBState × Nat) :=
  storeWeatherAux wd loc (List.range wd.time.length) (db, 0)

/-- `fetch_and_store_weather`. A `.error` from `api` models a caught
`RequestException` (log, return 0); an uncaught `IndexError` from the
insert loop propagates as `.error`. -/
def fetch_and_store_weather (db : DBState) (location_id : Nat)
    (city_data : CityData)
    (api : WeatherParams → Except RequestError WeatherDaily) :
    Except PyError (DBState × Nat) :=
  match api (weatherParams city_data) with
  | .error _ => .ok (db, 0)
  | .ok weather_data => storeWeather db location_id weather_data

/-- SQL `AVG` over a nullable column: `NULL` entries are skipped, and the
result is `NULL` when no non-`NULL` value remains. -/
def sqlAvg (xs : List (Option Rat)) : Option Rat :=
  let vs := xs.filterMap id
  if vs.length = 0 then none else some (vs.sum / vs.length)

/-- SQLite `ROUND(x, 2)`: round to two decimals, halves away from zero. -/
def round2 (x : Rat) : Rat :=
  if 0 ≤ x then ((⌊x * 100 + 1 / 2⌋ : Int) : Rat) / 100
  else -(((⌊-x * 100 + 1 / 2⌋ : Int) : Rat) / 100)

/-- The breweries of the target location whose `BreweryType` is micro
(the `WHERE` clause of the correlation query; joining `Locations` on
`B.LocationID = L.LocationID` with `L.LocationID = ?` filters `Breweries`
to `B.LocationID = ?`). -/
def microBreweries (db : DBState) (loc : Nat) : List BreweryRow :=
  db.breweries.filter
    (fun b => b.locationID == loc && b.breweryType == some "micro")

/-- The weather rows joined in for the target location
(`W.LocationID = L.LocationID` with `L.LocationID = ?`). -/
def weatherFor (db : DBState) (loc : Nat) : List WeatherRow :=
  db.weather.filter (fun w => w.locationID == loc)

/-- The row set of the correlation query before aggregation: the cross
product of the matching micro breweries and the weather rows of the
target location. -/
def joinRows (db : DBState) (loc : Nat) : List (BreweryRow × WeatherRow) :=
  (microBreweries db loc).flatMap
    (fun b => (weatherFor db loc).map (fun w => (b, w)))

/-- The aggregate correlation query:
`ROUND(AVG(W.MaxTemp), 2)` and `COUNT(DISTINCT B.BreweryID)` over the
joined rows. An aggregate query without grouping always yields exactly one
result row, so the result is a plain pair. -/
def correlationQuery (db : DBState) (loc : Nat) : Option Rat × Nat :=
  let rows := joinRows db loc
  ((sqlAvg (rows.map (fun r => r.2.maxTemp))).map round2,
    ((rows.map (fun r => r.1.breweryID)).dedup).length)

/-- One formatted block appended to `calculations.txt` by
`write_calculation_to_file`: the timestamp line, the location line, and the
two result lines. -/
structure ReportBlock where
  timestamp : String
  city : String
  state : String
  avg_temp : Rat
  micro_count : Nat
  deriving Repr, DecidableEq

/-- `write_calculation_to_file`: open the report in append mode and append
one formatted block. A failing `open`/`write` (`OSError`) is not caught
here and propagates. -/
def write_calculation_to_file (report : List ReportBlock)
    (openResult : Except PyError Unit) (avg_temp : Rat) (micro_count : Nat)
    (timestamp : String) : Except PyError (List ReportBlock) :=
  match openResult with
  | .error e => .error e
  | .ok _ =>
      .ok (report ++ [⟨timestamp, TARGET_CITY, TARGET_STATE, avg_temp,
        micro_count⟩])

/-- `run_correlation_calculation`: run the aggregate query; when the
average is `NULL` (`result[0] is None`; the fetched tuple itself is always
truthy) print the no-data message and return `(None, None)`, otherwise
write one block to the report and return the pair. -/
def run_correlation_calculation (db : DBState) (location_id : Nat)
    (report : List ReportBlock) (openResult : Except PyError Unit)
    (timestamp : String) :
    Except PyError (List ReportBlock × Option (Rat × Nat)) :=
  match correlationQuery db location_id with
  | (some avg_temp, micro_count) =>
      match write_calculation_to_file report openResult avg_temp micro_count
          timestamp with
      | .error e => .error e
      | .ok report2 => .ok (report2, some (avg_temp, micro_count))
  | (none, _) => .ok (report, none)

/-- What one visualization routine ends with: an image saved under a fixed
filename, an early return because the query result was empty, or an
exception swallowed by the routine's own catch-all handler. -/
inductive VizResult where
  | saved (filename : String)
  | noData
  | errorCaught
  deriving Repr, DecidableEq

/-- Insertion step for sorting brewery-type counts descending. -/
def insertDescByCount (p : Option String × Nat) :
    List (Option String × Nat) → List (Option String × Nat)
  | [] => [p]
  | q :: qs =>
      if p.2 ≥ q.2 then p :: q :: qs else q :: insertDescByCount p qs

/-- `ORDER BY Count DESC` on the grouped brewery-type counts. -/
def sortDescByCount :
    List (Option String × Nat) → List (Option String × Nat)
  | [] => []
  | p :: ps => insertDescByCount p (sortDescByCount ps)

/-- The query of visualization 1: brewery-type counts grouped over all
locations, `HAVING Count > 0`, sorted descending, `LIMIT 5`. -/
def viz1Groups (db : DBState) : List (Option String × Nat) :=
  let types := (db.breweries.map (fun b => b.breweryType)).dedup
  let counts := types.map
    (fun t => (t, (db.breweries.filter (fun b => b.breweryType == t)).length))
  (sortDescByCount (counts.filter (fun p => p.2 > 0))).take 5

/-- The body of `create_visualization_1` (inside its `try`): query, early
return on an empty frame, otherwise `savefig`. -/
def viz1Body (db : DBState) (savefig : Except PyError Unit) :
    Except PyError VizResult :=
  if (viz1Groups db).isEmpty then .ok .noData
  else
    match savefig with
    | .error e => .error e
    | .ok _ => .ok (.saved "visualization_1_brewery_type_distribution.png")

/-- `create_visualization_1`: the whole body runs inside
`try ... except Exception`, which prints a message and returns, so the
routine never lets an exception escape. -/
def create_visualization_1 (db : DBState) (savefig : Except PyError Unit) :
    VizResult :=
  match viz1Body db savefig with
  | .ok r => r
  | .error _ => .errorCaught

/-- The scalar subquery
`(SELECT LocationID FROM Locations WHERE City = ...)` used by
visualizations 2 and 3: the id of the first `Locations` row whose `City`
matches, `NULL` when none does. The `State` column plays no part. -/
def selectLocationIdByCity (db : DBState) (city : String) : Option Nat :=
  (db.locations.find? (fun l => l.city == city)).map (fun l => l.locationID)

/-- `'{city}'.lower().replace(' ', '_')` used in the image filenames. -/
def citySlug (s : String) : String := (s.toLower).replace " " "_"

/-- Insertion step for `ORDER BY Date` on the time-series frame. -/
def insertByDate (p : String × Option Rat) :
    List (String × Option Rat) → List (String × Option Rat)
  | [] => [p]
  | q :: qs => if p.1 ≤ q.1 then p :: q :: qs else q :: insertByDate p qs

/-- `ORDER BY Date` on the time-series frame. -/
def sortByDate :
    List (String × Option Rat) → List (String × Option Rat)
  | [] => []
  | p :: ps => insertByDate p (sortByDate ps)

/-- The query of visualization 2: `Date, MaxTemp` of the weather rows whose
`LocationID` equals the scalar subquery result, ordered by date. A `NULL`
subquery result (`LocationID = NULL`) matches no row. -/
def viz2Rows (db : DBState) (city : String) : List (String × Option Rat) :=
  match selectLocationIdByCity db city with
  | none => []
  | some lid =>
      sortByDate ((db.weather.filter (fun w => w.locationID == lid)).map
        (fun w => (w.date, w.maxTemp)))

/-- The body of `create_visualization_2_time_series` (inside its `try`). -/
def viz2Body (db : DBState) (city_data : CityData)
    (savefig : Except PyError Unit) : Except PyError VizResult :=
  if (viz2Rows db city_data.city).isEmpty then .ok .noData
  else
    match savefig with
    | .error e => .error e
    | .ok _ =>
        .ok (.saved ("visualization_2_" ++ citySlug city_data.city ++
          "_temp_time_series.png"))

/-- `create_visualization_2_time_series` with its own catch-all handler. -/
def create_visualization_2_time_series (db : DBState) (city_data : CityData)
    (savefig : Except PyError Unit) : VizResult :=
  match viz2Body db city_data savefig with
  | .ok r => r
  | .error _ => .errorCaught

/-- The query of visualization 3: `MaxTemp, WindGustsMax` of the weather
rows whose `LocationID` equals the scalar subquery result. -/
def viz3Rows (db : DBState) (city : String) :
    List (Option Rat × Option Rat) :=
  match selectLocationIdByCity db city with
  | none => []
  | some lid =>
      (db.weather.filter (fun w => w.locationID == lid)).map
        (fun w => (w.maxTemp, w.windGustsMax))

/-- The body of `create_visualization_3_ec_scatter` (inside its `try`). -/
def viz3Body (db : DBState) (city_data : CityData)
    (savefig : Except PyError Unit) : Except PyError VizResult :=
  if (viz3Rows db city_data.city).isEmpty then .ok .noData
  else
    match savefig with
    | .error e => .error e
    | .ok _ =>
        .ok (.saved ("visualization_3_ec_" ++ citySlug city_data.city ++
          "_temp_wind_scatter.png"))

/-- `create_visualization_3_ec_scatter` with its own catch-all handler. -/
def create_visualization_3_ec_scatter (db : DBState) (city_data : CityData)
    (savefig : Except PyError Unit) : VizResult :=
  match viz3Body db city_data savefig with
  | .ok r => r
  | .error _ => .errorCaught

/-- The query of visualization 4: average `SunshineDuration` of the joined
weather rows grouped by `L.City`, `HAVING AvgSunshine IS NOT NULL`. -/
def viz4Rows (db : DBState) : List (String × Rat) :=
  ((db.locations.map (fun l => l.city)).dedup).filterMap
    (fun c =>
      let lids := (db.locations.filter (fun l => l.city == c)).map
        (fun l => l.locationID)
      let sunshine := (db.weather.filter
        (fun w => lids.contains w.locationID)).map
        (fun w => w.sunshineDuration)
      (sqlAvg sunshine).map (fun a => (c, a)))

/-- The body of `create_visualization_4_city_comparison` (inside its
`try`). -/
def viz4Body (db : DBState) (savefig : Except PyError Unit) :
    Except PyError VizResult :=
  if (viz4Rows db).isEmpty then .ok .noData
  else
    match savefig with
    | .error e => .error e
    | .ok _ => .ok (.saved "visualization_4_city_sunshine_comparison.png")

/-- `create_visualization_4_city_comparison` with its own catch-all
handler. -/
def create_visualization_4_city_comparison (db : DBState)
    (savefig : Except PyError Unit) : VizResult :=
  match viz4Body db savefig with
  | .ok r => r
  | .error _ => .errorCaught

/-- The injected outside world of one `main()` run: the two APIs, the
report-file open outcome, the four `savefig` outcomes, and the wall-clock
timestamp. -/
structure Effects where
  breweryApi : BreweryRequest → Except RequestError (List BreweryRecord)
  weatherApi : WeatherParams → Except RequestError WeatherDaily
  reportOpen : Except PyError Unit
  savefig1 : Except PyError Unit
  savefig2 : Except PyError Unit
  savefig3 : Except PyError Unit
  savefig4 : Except PyError Unit
  timestamp : String

/-- The data-gathering loop of `main()` over the `CITIES` list: resolve the
location, ingest breweries, ingest weather, recording
`location_ids[city] = location_id`. An `IndexError` from the weather
ingester propagates out of the loop. -/
def gatherCities (fx : Effects) :
    List CityData → DBState → List (String × Nat) →
    Except PyError (DBState × List (String × Nat))
  | [], db, ids => .ok (db, ids)
  | cd :: rest, db, ids =>
      let r0 := get_or_create_location db cd.city cd.state cd.lat cd.long
      let r1 := fetch_and_store_breweries r0.1 r0.2 cd fx.breweryApi
      match fetch_and_store_weather r1.1 r0.2 cd fx.weatherApi with
      | .error e => .error e
      | .ok r2 => gatherCities fx rest r2.1 (ids ++ [(cd.city, r0.2)])

/-- The result of a completed `main()` run. -/
structure RunOutcome where
  db : DBState
  report : List ReportBlock
  calcResult : Option (Rat × Nat)
  viz : List VizResult
  deriving Repr, DecidableEq

/-- `main()`: gather data for each configured city, look up the primary
location id (`location_ids[CITIES[0]['city']]`, a `KeyError` if absent),
run the correlation calculation, then render the four visualizations. Any
exception not caught inside a component surfaces as `.error`. -/
def main (db0 : DBState) (report0 : List ReportBlock) (fx : Effects) :
    Except PyError RunOutcome :=
  match gatherCities fx CITIES db0 [] with
  | .error e => .error e
  | .ok (db, ids) =>
      match ids.find? (fun p => p.1 == TARGET_CITY) with
      | none => .error .keyError
      | some pr =>
          match run_correlation_calculation db pr.2 report0 fx.reportOpen
              fx.timestamp with
          | .error e => .error e
          | .ok (report1, calcRes) =>
              .ok ⟨db, report1, calcRes,
                [create_visualization_1 db fx.savefig1,
                 create_visualization_2_time_series db ann_arbor_data
                   fx.savefig2,
                 create_visualization_3_ec_scatter db dallas_data
                   fx.savefig3,
                 create_visualization_4_city_comparison db fx.savefig4]⟩

/-- What the process prints at the very end: the completion banner, or the
generic message of the top-level `except Exception` handler in the
`__main__` block. -/
inductive TopOutcome where
  | completed
  | genericErrorPrinted
  deriving Repr, DecidableEq

/-- The `try: main() except Exception` block at the process boundary. -/
def top_level (r : Except PyError RunOutcome) : TopOutcome :=
  match r with
  | .ok _ => .completed
  | .error _ => .genericErrorPrinted

/-! ### Concrete fixtures used by witnesses and counterexamples -/

/-- A database holding 100 brewery rows for location 1. -/
def db100 : DBState :=
  ⟨[⟨1, "Ann Arbor", "Michigan", 0, 0⟩],
   (List.range 100).map (fun i => ⟨i + 1, toString i, some "micro", none, 1⟩),
   [], 2, 101, 1⟩

/-- A database already holding the brewery `(Existing Brewery, location 1)`. -/
def dbDup : DBState :=
  ⟨[⟨1, "Ann Arbor", "Michigan", 0, 0⟩],
   [⟨1, "Existing Brewery", some "micro", none, 1⟩], [], 2, 2, 1⟩

/-- A brewery API response consisting solely of a record whose
`(name, location)` pair is already stored in `dbDup`. -/
def dupResponse : List BreweryRecord :=
  [⟨some "Existing Brewery", some "micro", none⟩]

/-- A brewery API stub for which every request fails. -/
def failingBreweryApi :
    BreweryRequest → Except RequestError (List BreweryRecord) :=
  fun _ => .error (.requestException "timeout")

/-- A weather API stub for which every request fails. -/
def failingWeatherApi : WeatherParams → Except RequestError WeatherDaily :=
  fun _ => .error (.requestException "timeout")

/-- A brewery API stub returning an empty page. -/
def emptyPageApi : BreweryRequest → Except RequestError (List BreweryRecord) :=
  fun _ => .ok []

/-- The synthetic dataset of claim C4: one location, exactly two micro
breweries, and weather rows whose max temperatures are 20.0 and 30.0. -/
def dbSynthetic : DBState :=
  ⟨[⟨1, "Ann Arbor", "Michigan", 0, 0⟩],
   [⟨1, "Brewery A", some "micro", none, 1⟩,
    ⟨2, "Brewery B", some "micro", none, 1⟩],
   [⟨1, "2025-01-01", some 20, none, none, none, 1⟩,
    ⟨2, "2025-01-02", some 30, none, none, none, 1⟩],
   2, 3, 3⟩

/-- A database where the join of the correlation query is nonempty but the
single joined weather row carries a `NULL` `MaxTemp`. -/
def dbNullTemp : DBState :=
  ⟨[⟨1, "Ann Arbor", "Michigan", 0, 0⟩],
   [⟨1, "Null Brewery", some "micro", none, 1⟩],
   [⟨1, "2025-01-01", none, none, none, none, 1⟩],
   2, 2, 2⟩

/-- A malformed weather response: one date but empty measurement arrays. -/
def wdShort : WeatherDaily := ⟨["2025-01-01"], [], [], [], []⟩

/-- A well-formed one-day weather response. -/
def wdGood : WeatherDaily :=
  ⟨["2025-01-01"], [some 1], [none], [none], [none]⟩

/-- `SELECT 1 FROM Weather WHERE Date = d AND LocationID = loc` as a
boolean: exactly the `UNIQUE (Date, LocationID)` conflict test of
`INSERT OR IGNORE INTO Weather`. -/
def datePresent (db : DBState) (loc : Nat) (d : String) : Bool :=
  db.weather.any (fun r => r.date == d && r.locationID == loc)

/-- A two-day weather response used by the idempotence witness. -/
def wdTwo : WeatherDaily :=
  ⟨["2025-01-01", "2025-01-02"], [some 20, some 30], [none, none],
   [none, none], [none, none]⟩

/-- A weather API stub that always returns `wdTwo`. -/
def weatherApiTwo : WeatherParams → Except RequestError WeatherDaily :=
  fun _ => .ok wdTwo

/-- The database produced by ingesting `wdTwo` into `emptyDB` for
location 7. -/
def dbAfterWeather : DBState :=
  ⟨[], [],
   [⟨1, "2025-01-01", some 20, none, none, none, 7⟩,
    ⟨2, "2025-01-02", some 30, none, none, none, 7⟩],
   1, 1, 3⟩

/-- Reassign every location row's `State` column (keeping city, id and
coordinates); used to state that the visualization queries ignore the
state. -/
def reassignStates (db : DBState) (f : LocationRow → String) : DBState :=
  { db with
      locations := db.locations.map (fun l => { l with state := f l }) }

/-- Two locations sharing one city name in different states, each with its
own weather row. -/
def dbTwinCities : DBState :=
  ⟨[⟨1, "Springfield", "Illinois", 0, 0⟩,
    ⟨2, "Springfield", "Massachusetts", 0, 0⟩],
   [],
   [⟨1, "2025-01-01", some 5, none, none, none, 1⟩,
    ⟨2, "2025-01-01", some 7, none, none, none, 2⟩],
   3, 1, 3⟩

/-- An empty weather response (`daily` object with empty arrays). -/
def emptyDaily : WeatherDaily := ⟨[], [], [], [], []⟩

/-- Effects where only the image write of visualization 1 fails. -/
def vizFailEffects : Effects :=
  ⟨fun _ => .ok [], fun _ => .ok emptyDaily, .ok (),
   .error (.ioError "disk full"), .ok (), .ok (), .ok (),
   "2025-10-12 00:00:00"⟩

/-- A database holding a single brewery (so that visualization 1 has data
and reaches its `savefig` call). -/
def dbOneBrewery : DBState :=
  ⟨[], [⟨1, "Lone Brewery", some "brewpub", none, 99⟩], [], 1, 2, 1⟩

/-- Effects where only opening the report file fails. -/
def reportFailEffects : Effects :=
  ⟨fun _ => .ok [], fun _ => .ok emptyDaily,
   .error (.ioError "read-only file system"), .ok (), .ok (), .ok (),
   .ok (), "2025-10-12 00:00:00"⟩

/-- A database already holding the primary location with one micro brewery
and one weather row, so the correlation query has data. -/
def dbMicroData : DBState :=
  ⟨[⟨1, "Ann Arbor", "Michigan", 42.2776, -83.7409⟩],
   [⟨1, "Brewery A", some "micro", none, 1⟩],
   [⟨1, "2025-01-01", some 20, none, none, none, 1⟩],
   2, 2, 2⟩

/-- `dbMicroData` after the gathering loop of `main` (the Dallas location
has been created; the APIs returned empty responses). -/
def dbMicroGathered : DBState :=
  ⟨[⟨1, "Ann Arbor", "Michigan", 42.2776, -83.7409⟩,
    ⟨2, "Dallas", "Texas", 32.7831, -96.8067⟩],
   [⟨1, "Brewery A", some "micro", none, 1⟩],
   [⟨1, "2025-01-01", some 20, none, none, none, 1⟩],
   3, 2, 2⟩

/-! ### C7: ingestion skipped once the stored count reaches the minimum -/

/-- Claim C7: for every location whose stored brewery count is at least
`ROW_MINIMUM = 100`, `fetch_and_store_breweries` issues no network request
(the request trace is empty), performs no insert (the database is returned
unchanged), and returns 0. -/
theorem fetch_breweries_skip (db : DBState) (loc : Nat) (cd : CityData)
    (api : BreweryRequest → Except RequestError (List BreweryRecord))
    (h : ROW_MINIMUM ≤ breweryCount db loc) :
    fetch_and_store_breweries db loc cd api = (db, 0, []) := by
  simp only [fetch_and_store_breweries]
  rw [if_pos h]

/-- Witness for C7 at a database holding exactly 100 rows for location 1. -/
theorem fetch_breweries_skip_witness :
    ROW_MINIMUM ≤ breweryCount db100 1 ∧
    fetch_and_store_breweries db100 1 ann_arbor_data emptyPageApi =
      (db100, 0, []) :=
  ⟨by decide, fetch_breweries_skip db100 1 ann_arbor_data emptyPageApi
    (by decide)⟩

/-! ### C6: next page number of the single paginated request -/

/-- Claim C6: for every location with `n` stored brewery rows, `n < 100`,
`fetch_and_store_breweries` issues exactly one paginated request, whose
page number is `n / 25 + 1` and whose page size is 25. -/
theorem fetch_breweries_pagination (db : DBState) (loc : Nat) (cd : CityData)
    (api : BreweryRequest → Except RequestError (List BreweryRecord))
    (h : breweryCount db loc < ROW_MINIMUM) :
    (fetch_and_store_breweries db loc cd api).2.2 =
      [breweryParams cd (breweryCount db loc / 25 + 1)] ∧
    (breweryParams cd (breweryCount db loc / 25 + 1)).page =
      breweryCount db loc / 25 + 1 ∧
    (breweryParams cd (breweryCount db loc / 25 + 1)).per_page = 25 := by
  refine ⟨?_, ?_, ?_⟩
  · simp only [fetch_and_store_breweries]
    rw [if_neg (not_le.mpr h)]
    cases api (breweryParams cd (breweryCount db loc / PER_PAGE_LIMIT + 1)) <;>
      rfl
  · unfold breweryParams
    split <;> rfl
  · unfold breweryParams
    split <;> rfl

/-- Witness for C6 at the empty database (0 stored rows, so page 1). -/
theorem fetch_breweries_pagination_witness :
    (fetch_and_store_breweries emptyDB 1 ann_arbor_data emptyPageApi).2.2 =
      [breweryParams ann_arbor_data (breweryCount emptyDB 1 / 25 + 1)] ∧
    (breweryParams ann_arbor_data (breweryCount emptyDB 1 / 25 + 1)).page =
      breweryCount emptyDB 1 / 25 + 1 ∧
    (breweryParams ann_arbor_data
      (breweryCount emptyDB 1 / 25 + 1)).per_page = 25 :=
  fetch_breweries_pagination emptyDB 1 ann_arbor_data emptyPageApi (by decide)

/-! ### C8: behaviour on a network/HTTP request failure -/

/-- Claim C8: when every request fails, the brewery ingester returns with
the database unchanged, count 0 and exactly one issued request (no retry),
and the weather ingester returns normally (`.ok`, so the pipeline
continues) with the database unchanged and count 0. -/
theorem fetch_on_request_failure (db : DBState) (loc : Nat) (cd : CityData)
    (e : RequestError)
    (bapi : BreweryRequest → Except RequestError (List BreweryRecord))
    (wapi : WeatherParams → Except RequestError WeatherDaily)
    (hb : ∀ r, bapi r = .error e) (hw : ∀ p, wapi p = .error e)
    (hc : breweryCount db loc < ROW_MINIMUM) :
    fetch_and_store_breweries db loc cd bapi =
      (db, 0, [breweryParams cd (breweryCount db loc / PER_PAGE_LIMIT + 1)]) ∧
    fetch_and_store_weather db loc cd wapi = .ok (db, 0) := by
  constructor
  · simp only [fetch_and_store_breweries]
    rw [if_neg (not_le.mpr hc), hb]
  · simp only [fetch_and_store_weather]
    rw [hw]

/-- Witness for C8 at the empty database with always-failing API stubs. -/
theorem fetch_on_request_failure_witness :
    fetch_and_store_breweries emptyDB 1 ann_arbor_data failingBreweryApi =
      (emptyDB, 0,
        [breweryParams ann_arbor_data
          (breweryCount emptyDB 1 / PER_PAGE_LIMIT + 1)]) ∧
    fetch_and_store_weather emptyDB 1 ann_arbor_data failingWeatherApi =
      .ok (emptyDB, 0) :=
  fetch_on_request_failure emptyDB 1 ann_arbor_data
    (.requestException "timeout") failingBreweryApi failingWeatherApi
    (fun _ => rfl) (fun _ => rfl) (by decide)

/-! ### C1: the returned count is not the number of newly inserted rows -/

/-- Claim C1 names a bug in the code: for a response consisting of one
record whose `(name, location)` pair is already stored,
`fetch_and_store_breweries` adds no row (the database comes back unchanged)
yet returns 1, because `inserted_count += 1` runs after every
`INSERT OR IGNORE` and `OR IGNORE` never raises the `sqlite3.IntegrityError`
that the counter logic tries to catch. The claim (return value = rows
actually added, duplicates not counted) requires the return value 0 here. -/
theorem fetch_breweries_count_overreport :
    fetch_and_store_breweries dbDup 1 ann_arbor_data (fun _ => .ok dupResponse) =
      (dbDup, 1, [breweryParams ann_arbor_data 1]) := rfl

/-! ### C4: the correlation query on the synthetic dataset -/

/-- Claim C4: on `dbSynthetic` the correlation query returns average max
temperature 25.0 and distinct micro-brewery count 2 (the join duplicates
each temperature once per matching brewery, which leaves the average
unchanged, and `COUNT(DISTINCT BreweryID)` collapses the duplicates). -/
theorem correlation_join_synthetic :
    correlationQuery dbSynthetic 1 = (some 25, 2) := by
  have hmap : (joinRows dbSynthetic 1).map (fun r => r.2.maxTemp) =
      [some 20, some 30, some 20, some 30] := rfl
  have hcnt :
      (((joinRows dbSynthetic 1).map (fun r => r.1.breweryID)).dedup).length =
        2 := rfl
  have hfm : ([some 20, some 30, some 20, some 30] :
      List (Option Rat)).filterMap id = [20, 30, 20, 30] := rfl
  have havg : sqlAvg [some 20, some 30, some 20, some 30] = some 25 := by
    norm_num [sqlAvg, hfm]
  have h25 : round2 25 = 25 := by
    unfold round2
    rw [if_pos (by norm_num : (0 : Rat) ≤ 25)]
    rw [show (⌊(25 : Rat) * 100 + 1 / 2⌋ : Int) = 2500 from by
      rw [Int.floor_eq_iff]
      constructor <;> norm_num]
    norm_num
  simp only [correlationQuery]
  rw [hmap, hcnt, havg, Option.map_some', h25]

/-! ### C3: report writing in `run_correlation_calculation` -/

/-- `AVG` of a nullable column is `NULL` exactly when every entry is
`NULL` (in particular when there is no entry at all). -/
theorem sqlAvg_eq_none_iff (xs : List (Option Rat)) :
    sqlAvg xs = none ↔ ∀ x ∈ xs, x = none := by
  simp only [sqlAvg]
  split
  · next h =>
      have hx : xs.filterMap id = [] := List.length_eq_zero.mp h
      constructor
      · intro _ x hxmem
        have := (List.filterMap_eq_nil_iff.mp hx) x hxmem
        simpa using this
      · intro _
        rfl
  · next h =>
      constructor
      · intro hcontra
        cases hcontra
      · intro hall
        exfalso
        apply h
        have hx : xs.filterMap id = [] :=
          List.filterMap_eq_nil_iff.mpr (fun a ha => by simpa using hall a ha)
        rw [hx]
        rfl

/-- Counterexample to claim C3 as stated: on `dbNullTemp` the correlation
join matches one row, yet `run_correlation_calculation` reports "no data"
and appends nothing to the report, because `AVG(W.MaxTemp)` is `NULL` when
every joined `MaxTemp` is `NULL` and the code branches on
`result[0] is not None`. -/
theorem correlation_nulltemp_counterexample :
    joinRows dbNullTemp 1 ≠ [] ∧
    run_correlation_calculation dbNullTemp 1 [] (.ok ())
      "2025-10-12 00:00:00" = .ok ([], none) :=
  ⟨by decide, rfl⟩

/-- Claim C3 as amended: if every joined row carries a `NULL` `MaxTemp`
(in particular if no rows match the join), `run_correlation_calculation`
reports "no data" and writes nothing; otherwise it appends exactly one
timestamped block to the report (opened in append mode). -/
theorem run_correlation_report_behaviour (db : DBState) (loc : Nat)
    (report : List ReportBlock) (ts : String) :
    ((joinRows db loc).all (fun r => r.2.maxTemp == none) = true →
      run_correlation_calculation db loc report (.ok ()) ts =
        .ok (report, none)) ∧
    ((joinRows db loc).all (fun r => r.2.maxTemp == none) = false →
      ∃ a c, run_correlation_calculation db loc report (.ok ()) ts =
        .ok (report ++ [⟨ts, TARGET_CITY, TARGET_STATE, a, c⟩],
          some (a, c))) := by
  constructor
  · intro hall
    have hnone : sqlAvg ((joinRows db loc).map (fun r => r.2.maxTemp)) =
        none := by
      rw [sqlAvg_eq_none_iff]
      intro x hx
      obtain ⟨r, hr, rfl⟩ := List.mem_map.mp hx
      have := List.all_eq_true.mp hall r hr
      simpa using this
    have hq : correlationQuery db loc =
        (none,
          (((joinRows db loc).map (fun r => r.1.breweryID)).dedup).length) := by
      simp only [correlationQuery]
      rw [hnone]
      rfl
    simp only [run_correlation_calculation, hq]
  · intro hne
    have hsome : sqlAvg ((joinRows db loc).map (fun r => r.2.maxTemp)) ≠
        none := by
      rw [Ne, sqlAvg_eq_none_iff]
      intro hcontra
      have hall : (joinRows db loc).all (fun r => r.2.maxTemp == none) =
          true := by
        rw [List.all_eq_true]
        intro r hr
        have := hcontra (r.2.maxTemp) (List.mem_map.mpr ⟨r, hr, rfl⟩)
        simpa using this
      rw [hall] at hne
      cases hne
    obtain ⟨v, hv⟩ := Option.ne_none_iff_exists'.mp hsome
    have hq : correlationQuery db loc =
        (some (round2 v),
          (((joinRows db loc).map (fun r => r.1.breweryID)).dedup).length) := by
      simp only [correlationQuery]
      rw [hv]
      rfl
    exact ⟨round2 v,
      (((joinRows db loc).map (fun r => r.1.breweryID)).dedup).length,
      by simp [run_correlation_calculation, hq, write_calculation_to_file]⟩

/-- Witness for the amended C3 at `dbNullTemp` (the all-`NULL` branch). -/
theorem run_correlation_report_behaviour_witness :
    run_correlation_calculation dbNullTemp 1 [] (.ok ())
      "2025-10-12 00:00:00" = .ok ([], none) :=
  (run_correlation_report_behaviour dbNullTemp 1 [] "2025-10-12 00:00:00").1
    (by decide)

/-! ### C9: no array-length validation in the weather insert loop -/

/-- When the index is in range for all five arrays, one loop iteration
succeeds. -/
theorem storeWeatherStep_ok_of_bounds (wd : WeatherDaily) (loc i : Nat)
    (acc : DBState × Nat)
    (h1 : i < wd.time.length) (h2 : i < wd.temperature_2m_max.length)
    (h3 : i < wd.sunshine_duration.length)
    (h4 : i < wd.precipitation_sum.length)
    (h5 : i < wd.wind_gusts_10m_max.length) :
    ∃ acc2, storeWeatherStep wd loc i acc = .ok acc2 := by
  unfold storeWeatherStep
  rw [List.getElem?_eq_getElem h1, List.getElem?_eq_getElem h2,
    List.getElem?_eq_getElem h3, List.getElem?_eq_getElem h4,
    List.getElem?_eq_getElem h5]
  exact ⟨_, rfl⟩

/-- When every processed index is in range for all five arrays, the whole
loop succeeds. -/
theorem storeWeatherAux_ok_of_bounds (wd : WeatherDaily) (loc : Nat)
    (is : List Nat) :
    ∀ acc, (∀ i ∈ is, i < wd.time.length ∧
        i < wd.temperature_2m_max.length ∧
        i < wd.sunshine_duration.length ∧
        i < wd.precipitation_sum.length ∧
        i < wd.wind_gusts_10m_max.length) →
      ∃ r, storeWeatherAux wd loc is acc = .ok r := by
  induction is with
  | nil => exact fun acc _ => ⟨acc, rfl⟩
  | cons i tl ih =>
      intro acc h
      obtain ⟨h1, h2, h3, h4, h5⟩ := h i (List.mem_cons_self i tl)
      obtain ⟨acc2, hstep⟩ :=
        storeWeatherStep_ok_of_bounds wd loc i acc h1 h2 h3 h4 h5
      obtain ⟨r, hr⟩ := ih acc2 (fun j hj => h j (List.mem_cons_of_mem i hj))
      refine ⟨r, ?_⟩
      simp only [storeWeatherAux]
      rw [hstep]
      exact hr

/-- Claim C9: the weather insert loop performs no length validation. When
all five arrays are at least as long as the dates array, every index
access is in bounds and the loop completes; when another array is shorter
than the dates array (here `wdShort`), an out-of-bounds access occurs and
escapes `fetch_and_store_weather` as an uncaught `IndexError` (the per-row
handler names only `sqlite3.IntegrityError`). -/
theorem weather_no_length_validation :
    (∀ (db : DBState) (loc : Nat) (wd : WeatherDaily),
        wd.time.length ≤ wd.temperature_2m_max.length →
        wd.time.length ≤ wd.sunshine_duration.length →
        wd.time.length ≤ wd.precipitation_sum.length →
        wd.time.length ≤ wd.wind_gusts_10m_max.length →
        ∃ r, storeWeather db loc wd = .ok r) ∧
    storeWeather emptyDB 1 wdShort = .error .indexError ∧
    fetch_and_store_weather emptyDB 1 ann_arbor_data (fun _ => .ok wdShort) =
      .error .indexError := by
  refine ⟨?_, rfl, rfl⟩
  intro db loc wd ha hb hc hd
  apply storeWeatherAux_ok_of_bounds
  intro i hi
  have hlt : i < wd.time.length := List.mem_range.mp hi
  exact ⟨hlt, lt_of_lt_of_le hlt ha, lt_of_lt_of_le hlt hb,
    lt_of_lt_of_le hlt hc, lt_of_lt_of_le hlt hd⟩

/-- Witness for C9 at a well-formed one-day response. -/
theorem weather_no_length_validation_witness :
    ∃ r, storeWeather emptyDB 1 wdGood = .ok r :=
  weather_no_length_validation.1 emptyDB 1 wdGood (by decide) (by decide)
    (by decide) (by decide)

/-! ### C5: idempotence of weather ingestion -/

/-- A successful loop iteration determines the five array entries and the
resulting accumulator. -/
theorem storeWeatherStep_ok_elim (wd : WeatherDaily) (loc i : Nat)
    (acc acc2 : DBState × Nat)
    (h : storeWeatherStep wd loc i acc = .ok acc2) :
    ∃ d t s p w, wd.time[i]? = some d ∧
      wd.temperature_2m_max[i]? = some t ∧
      wd.sunshine_duration[i]? = some s ∧
      wd.precipitation_sum[i]? = some p ∧
      wd.wind_gusts_10m_max[i]? = some w ∧
      acc2 = (insertWeatherIgnore acc.1 loc d t s p w, acc.2 + 1) := by
  unfold storeWeatherStep at h
  cases h1 : wd.time[i]? with
  | none => rw [h1] at h; exact Except.noConfusion h
  | some d =>
  rw [h1] at h
  cases h2 : wd.temperature_2m_max[i]? with
  | none => rw [h2] at h; exact Except.noConfusion h
  | some t =>
  rw [h2] at h
  cases h3 : wd.sunshine_duration[i]? with
  | none => rw [h3] at h; exact Except.noConfusion h
  | some s =>
  rw [h3] at h
  cases h4 : wd.precipitation_sum[i]? with
  | none => rw [h4] at h; exact Except.noConfusion h
  | some p =>
  rw [h4] at h
  cases h5 : wd.wind_gusts_10m_max[i]? with
  | none => rw [h5] at h; exact Except.noConfusion h
  | some w =>
  rw [h5] at h
  exact ⟨d, t, s, p, w, rfl, rfl, rfl, rfl, rfl, (Except.ok.inj h).symm⟩

/-- `INSERT OR IGNORE` only ever appends to the weather table. -/
theorem insertWeatherIgnore_weather_append (db : DBState) (loc : Nat)
    (d : String) (t s p w : Option Rat) :
    ∃ ext, (insertWeatherIgnore db loc d t s p w).weather =
      db.weather ++ ext := by
  unfold insertWeatherIgnore
  split
  · exact ⟨[], (List.append_nil _).symm⟩
  · exact ⟨[⟨db.nextWeatherID, d, t, s, p, w, loc⟩], rfl⟩

/-- Growing the weather table preserves `datePresent`. -/
theorem datePresent_of_append (db db2 : DBState) (loc : Nat) (d : String)
    (ext : List WeatherRow) (h : db2.weather = db.weather ++ ext)
    (hp : datePresent db loc d = true) : datePresent db2 loc d = true := by
  unfold datePresent at *
  rw [h, List.any_append, hp]
  rfl

/-- After `INSERT OR IGNORE` of a date, that date is present. -/
theorem insertWeatherIgnore_datePresent_self (db : DBState) (loc : Nat)
    (d : String) (t s p w : Option Rat) :
    datePresent (insertWeatherIgnore db loc d t s p w) loc d = true := by
  unfold insertWeatherIgnore datePresent
  split
  · next h => exact h
  · simp [List.any_append]

/-- The whole insert loop only ever appends to the weather table. -/
theorem storeWeatherAux_weather_append (wd : WeatherDaily) (loc : Nat)
    (is : List Nat) :
    ∀ acc r, storeWeatherAux wd loc is acc = .ok r →
      ∃ ext, r.1.weather = acc.1.weather ++ ext := by
  induction is with
  | nil =>
      intro acc r h
      cases Except.ok.inj h
      exact ⟨[], (List.append_nil _).symm⟩
  | cons i tl ih =>
      intro acc r h
      simp only [storeWeatherAux] at h
      cases hstep : storeWeatherStep wd loc i acc with
      | error e => rw [hstep] at h; exact Except.noConfusion h
      | ok acc2 =>
          rw [hstep] at h
          obtain ⟨d, t, s, p, w, _, _, _, _, _, hacc2⟩ :=
            storeWeatherStep_ok_elim wd loc i acc acc2 hstep
          obtain ⟨ext1, hext1⟩ :=
            insertWeatherIgnore_weather_append acc.1 loc d t s p w
          obtain ⟨ext2, hext2⟩ := ih acc2 r h
          refine ⟨ext1 ++ ext2, ?_⟩
          rw [hext2, hacc2]
          simp [hext1]

/-- After a successful run of the insert loop, every processed date is
present for the target location. -/
theorem storeWeatherAux_establishes (wd : WeatherDaily) (loc : Nat)
    (is : List Nat) :
    ∀ acc r, storeWeatherAux wd loc is acc = .ok r →
      ∀ i ∈ is, ∀ d, wd.time[i]? = some d →
        datePresent r.1 loc d = true := by
  induction is with
  | nil =>
      intro acc r _ i hi
      cases hi
  | cons j tl ih =>
      intro acc r h i hi d hd
      simp only [storeWeatherAux] at h
      cases hstep : storeWeatherStep wd loc j acc with
      | error e => rw [hstep] at h; exact Except.noConfusion h
      | ok acc2 =>
          rw [hstep] at h
          obtain ⟨d0, t, s, p, w, hd0, _, _, _, _, hacc2⟩ :=
            storeWeatherStep_ok_elim wd loc j acc acc2 hstep
          rcases List.mem_cons.mp hi with hij | hitl
          · subst hij
            rw [hd0] at hd
            cases Option.some.inj hd
            obtain ⟨ext, hext⟩ := storeWeatherAux_weather_append wd loc tl
              acc2 r h
            refine datePresent_of_append acc2.1 r.1 loc d ext hext ?_
            rw [hacc2]
            exact insertWeatherIgnore_datePresent_self acc.1 loc d t s p w
          · exact ih acc2 r h i hitl d hd

/-- A successful run of the insert loop means every processed index was in
bounds for all five arrays. -/
theorem storeWeatherAux_ok_bounds (wd : WeatherDaily) (loc : Nat)
    (is : List Nat) :
    ∀ acc r, storeWeatherAux wd loc is acc = .ok r →
      ∀ i ∈ is, (wd.time[i]?).isSome ∧
        (wd.temperature_2m_max[i]?).isSome ∧
        (wd.sunshine_duration[i]?).isSome ∧
        (wd.precipitation_sum[i]?).isSome ∧
        (wd.wind_gusts_10m_max[i]?).isSome := by
  induction is with
  | nil =>
      intro acc r _ i hi
      cases hi
  | cons j tl ih =>
      intro acc r h i hi
      simp only [storeWeatherAux] at h
      cases hstep : storeWeatherStep wd loc j acc with
      | error e => rw [hstep] at h; exact Except.noConfusion h
      | ok acc2 =>
          rw [hstep] at h
          rcases List.mem_cons.mp hi with hij | hitl
          · subst hij
            obtain ⟨d, t, s, p, w, h1, h2, h3, h4, h5, _⟩ :=
              storeWeatherStep_ok_elim wd loc i acc acc2 hstep
            rw [h1, h2, h3, h4, h5]
            exact ⟨rfl, rfl, rfl, rfl, rfl⟩
          · exact ih acc2 r h i hitl

/-- When every processed index is in bounds and every processed date is
already present, the insert loop changes nothing and merely counts. -/
theorem storeWeatherAux_noop (wd : WeatherDaily) (loc : Nat)
    (is : List Nat) :
    ∀ db n,
      (∀ i ∈ is, ∃ d t s p w, wd.time[i]? = some d ∧
        wd.temperature_2m_max[i]? = some t ∧
        wd.sunshine_duration[i]? = some s ∧
        wd.precipitation_sum[i]? = some p ∧
        wd.wind_gusts_10m_max[i]? = some w ∧
        datePresent db loc d = true) →
      storeWeatherAux wd loc is (db, n) = .ok (db, n + is.length) := by
  induction is with
  | nil =>
      intro db n _
      rfl
  | cons i tl ih =>
      intro db n h
      obtain ⟨d, t, s, p, w, h1, h2, h3, h4, h5, hp⟩ :=
        h i (List.mem_cons_self i tl)
      have hins : insertWeatherIgnore db loc d t s p w = db := by
        unfold insertWeatherIgnore
        unfold datePresent at hp
        rw [if_pos hp]
      have hstep : storeWeatherStep wd loc i (db, n) =
          .ok (db, n + 1) := by
        unfold storeWeatherStep
        rw [h1, h2, h3, h4, h5]
        show Except.ok (insertWeatherIgnore db loc d t s p w, n + 1) =
          Except.ok (db, n + 1)
        rw [hins]
      simp only [storeWeatherAux]
      rw [hstep]
      show storeWeatherAux wd loc tl (db, n + 1) =
        Except.ok (db, n + (i :: tl).length)
      rw [ih db (n + 1) (fun j hj => h j (List.mem_cons_of_mem i hj)),
        List.length_cons]
      have harith : n + 1 + tl.length = n + (tl.length + 1) := by omega
      rw [harith]

/-- Claim C5: weather ingestion is idempotent at the database level. If a
run of `fetch_and_store_weather` produced the state `db2`, running it again
with the unchanged response returns exactly `db2` — in particular, zero new
rows are added to the Weather table — because each insert whose
`(date, location)` pair already exists is skipped. -/
theorem fetch_weather_idempotent (db db2 : DBState) (n loc : Nat)
    (cd : CityData)
    (api : WeatherParams → Except RequestError WeatherDaily)
    (h : fetch_and_store_weather db loc cd api = .ok (db2, n)) :
    ∃ m, fetch_and_store_weather db2 loc cd api = .ok (db2, m) := by
  unfold fetch_and_store_weather at h ⊢
  cases hapi : api (weatherParams cd) with
  | error e =>
      rw [hapi] at h
      obtain ⟨h1, -⟩ := Prod.mk.injEq .. ▸ Except.ok.inj h
      cases h1
      exact ⟨0, rfl⟩
  | ok wd =>
      rw [hapi] at h
      refine ⟨wd.time.length, ?_⟩
      unfold storeWeather at h ⊢
      have hnoop := storeWeatherAux_noop wd loc
        (List.range wd.time.length) db2 0 ?_
      · show storeWeatherAux wd loc (List.range wd.time.length) (db2, 0) =
          Except.ok (db2, wd.time.length)
        rw [hnoop]
        simp
      · intro i hi
        obtain ⟨hs1, hs2, hs3, hs4, hs5⟩ := storeWeatherAux_ok_bounds wd loc
          (List.range wd.time.length) (db, 0) (db2, n) h i hi
        obtain ⟨d, hd⟩ := Option.isSome_iff_exists.mp hs1
        obtain ⟨t, ht⟩ := Option.isSome_iff_exists.mp hs2
        obtain ⟨s, hs⟩ := Option.isSome_iff_exists.mp hs3
        obtain ⟨p, hp⟩ := Option.isSome_iff_exists.mp hs4
        obtain ⟨w, hw⟩ := Option.isSome_iff_exists.mp hs5
        refine ⟨d, t, s, p, w, hd, ht, hs, hp, hw, ?_⟩
        exact storeWeatherAux_establishes wd loc
          (List.range wd.time.length) (db, 0) (db2, n) h i hi d hd

/-- Witness for C5: ingesting the fixed two-day response into the state it
itself produced returns that state unchanged. -/
theorem fetch_weather_idempotent_witness :
    ∃ m, fetch_and_store_weather dbAfterWeather 7 ann_arbor_data
      weatherApiTwo = .ok (dbAfterWeather, m) :=
  fetch_weather_idempotent emptyDB dbAfterWeather 2 7 ann_arbor_data
    weatherApiTwo rfl

/-! ### C10: visualizations 2 and 3 select weather by city name alone -/

/-- Reassigning states does not change which location id the scalar
subquery of visualizations 2 and 3 picks. -/
theorem find?_city_reassign (locs : List LocationRow) (city : String)
    (f : LocationRow → String) :
    ((locs.map (fun l => { l with state := f l })).find?
        (fun l => l.city == city)).map (fun l => l.locationID) =
      (locs.find? (fun l => l.city == city)).map (fun l => l.locationID) := by
  induction locs with
  | nil => rfl
  | cons a tl ih =>
      simp only [List.map_cons, List.find?_cons]
      cases hcase : (a.city == city) with
      | true => rfl
      | false => exact ih

/-- Claim C10: the weather selection of visualizations 2 and 3 depends on
the city name alone. Whenever the scalar subquery picks a location id, that
id belongs to some `Locations` row whose `City` matches — with no
constraint on its `State` — and reassigning every location's state changes
neither the picked id nor the plotted row sets, so two locations sharing a
city name are not distinguished. -/
theorem viz_select_by_city_only (db : DBState) (city : String)
    (f : LocationRow → String) :
    (∀ lid, selectLocationIdByCity db city = some lid →
      ∃ l, l ∈ db.locations ∧ l.city = city ∧ l.locationID = lid) ∧
    selectLocationIdByCity (reassignStates db f) city =
      selectLocationIdByCity db city ∧
    viz2Rows (reassignStates db f) city = viz2Rows db city ∧
    viz3Rows (reassignStates db f) city = viz3Rows db city := by
  have h2 : selectLocationIdByCity (reassignStates db f) city =
      selectLocationIdByCity db city :=
    find?_city_reassign db.locations city f
  refine ⟨?_, h2, ?_, ?_⟩
  · intro lid hsel
    unfold selectLocationIdByCity at hsel
    cases hfind : db.locations.find? (fun l => l.city == city) with
    | none => rw [hfind] at hsel; exact Option.noConfusion hsel
    | some l =>
        rw [hfind] at hsel
        exact ⟨l, List.mem_of_find?_eq_some hfind,
          by simpa using List.find?_some hfind, Option.some.inj hsel⟩
  · simp only [viz2Rows]
    rw [h2]
    rfl
  · simp only [viz3Rows]
    rw [h2]
    rfl

/-- Witness for C10 on `dbTwinCities`: the subquery picks location 1 (one
of the two Springfield rows) and the plotted rows ignore every state. -/
theorem viz_select_by_city_only_witness :
    (∃ l, l ∈ dbTwinCities.locations ∧ l.city = "Springfield" ∧
      l.locationID = 1) ∧
    viz2Rows (reassignStates dbTwinCities (fun _ => "Texas")) "Springfield" =
      viz2Rows dbTwinCities "Springfield" :=
  ⟨(viz_select_by_city_only dbTwinCities "Springfield"
      (fun _ => "Texas")).1 1 rfl,
   (viz_select_by_city_only dbTwinCities "Springfield"
      (fun _ => "Texas")).2.2.1⟩

/-! ### C2: which failures propagate to the top-level handler -/

/-- Counterexample to claim C2 as stated: with one stored brewery and a
failing image write, the failure is caught inside
`create_visualization_1`'s own handler — the run completes, the top-level
handler never fires, and the remaining pipeline still executes. The claim
requires this failure to propagate to the top-level catch-all. -/
theorem image_write_failure_caught :
    top_level (main dbOneBrewery [] vizFailEffects) = .completed ∧
    ∃ out, main dbOneBrewery [] vizFailEffects = .ok out ∧
      out.viz = [.errorCaught, .noData, .noData, .noData] :=
  ⟨rfl, _, rfl, rfl⟩

/-- When the correlation query has data and the report file cannot be
opened, `run_correlation_calculation` propagates the error. -/
theorem run_correlation_open_error (db : DBState) (loc : Nat)
    (report : List ReportBlock) (ts : String) (e : PyError) (a : Rat)
    (c : Nat) (hq : correlationQuery db loc = (some a, c)) :
    run_correlation_calculation db loc report (.error e) ts = .error e := by
  simp [run_correlation_calculation, hq, write_calculation_to_file]

/-- Claim C2 as amended: a failing image write is caught inside the
visualization routine itself (it resolves to `errorCaught`, not to a
propagating error), while a failing report-file write propagates out of
`run_correlation_calculation`, through `main`, to the top-level handler,
which prints the generic message. -/
theorem error_propagation_design :
    (∀ (db : DBState) (e : PyError), (viz1Groups db).isEmpty = false →
        create_visualization_1 db (.error e) = .errorCaught) ∧
    (∀ (db : DBState) (loc : Nat) (report : List ReportBlock) (ts : String)
        (e : PyError), (correlationQuery db loc).1.isSome = true →
        run_correlation_calculation db loc report (.error e) ts =
          .error e) ∧
    (∀ e : PyError, top_level (.error e) = .genericErrorPrinted) ∧
    (∀ (db0 : DBState) (report0 : List ReportBlock) (fx : Effects)
        (db : DBState) (ids : List (String × Nat)) (pr : String × Nat)
        (e : PyError),
        gatherCities fx CITIES db0 [] = .ok (db, ids) →
        ids.find? (fun q => q.1 == TARGET_CITY) = some pr →
        (correlationQuery db pr.2).1.isSome = true →
        fx.reportOpen = .error e →
        main db0 report0 fx = .error e) := by
  refine ⟨?_, ?_, ?_, ?_⟩
  · intro db e h
    simp [create_visualization_1, viz1Body, h]
  · intro db loc report ts e h
    rcases hq : correlationQuery db loc with ⟨avg, cnt⟩
    rw [hq] at h
    cases avg with
    | none => simp at h
    | some a => exact run_correlation_open_error db loc report ts e a cnt hq
  · intro e
    rfl
  · intro db0 report0 fx db ids pr e h1 h2 h3 h4
    rcases hq : correlationQuery db pr.2 with ⟨avg, cnt⟩
    rw [hq] at h3
    cases avg with
    | none => simp at h3
    | some a =>
        have hrc : run_correlation_calculation db pr.2 report0 fx.reportOpen
            fx.timestamp = .error e := by
          rw [h4]
          exact run_correlation_open_error db pr.2 report0 fx.timestamp e a
            cnt hq
        simp only [main, h1, h2, hrc]

/-- Witness for the amended C2: with micro-brewery and weather data present
and a read-only report file, `main` surfaces the write failure. -/
theorem error_propagation_design_witness :
    main dbMicroData [] reportFailEffects =
      .error (.ioError "read-only file system") :=
  error_propagation_design.2.2.2 dbMicroData [] reportFailEffects
    dbMicroGathered [("Ann Arbor", 1), ("Dallas", 2)] ("Ann Arbor", 1)
    (.ioError "read-only file system") rfl rfl rfl rfl

end FinalProject
